import Mathlib

/-!
# Verification of the matrix_tool session/orchestrator core

Shallow embedding of the session registry, login state machine and
timeout-bounded request orchestrator of the repository (src/api.rs,
src/error.rs, src/config.rs, src/main.rs), together with theorems settling
the specification claims.

Conventions of the embedding:
* Each `tokio::time::timeout(d, fut).await` around a capability call is
  modelled by a `CallOutcome` value supplied as an explicit parameter:
  `Ok(Ok(v))` is `.success v`, `Ok(Err(e))` is `.upstreamError e` (carrying
  the error's display string), `Err(_)` (deadline elapsed) is `.timedOut`.
* The `matrix_sdk::Client` is external; the embedding keeps only the state
  the handlers observe: the `logged_in()` flag and the set of room
  identifiers known to the client's store (`joined_rooms()` / `get_room`).
* `HashMap<String, Session>` behind the `RwLock` is modelled as an
  association list where the most recent insertion shadows older entries;
  `insert` conses, `get_mut`-style mutation rewrites the first (visible)
  binding.  This is observationally equivalent to the `HashMap` operations
  the handlers use.
* Handlers returning `Result<impl Responder, ApiError>` become functions
  into `Except ApiError HttpResponse`; the actix `ResponseError` rendering
  of the `Err` case (error.rs, `error_response`) is `renderResult`.
-/

namespace MatrixTool

/-- Minimal JSON value type for the bodies built with `serde_json::json!`.
Plain-text responder bodies (`HttpResponse::body(...)`) are `.str`. -/
inductive Json where
  | null : Json
  | str (s : String) : Json
  | num (n : Nat) : Json
  | arr (elems : List Json) : Json
  | obj (fields : List (String × Json)) : Json

/-- `serde_json::Value::get(key)`: field lookup, `None` on non-objects. -/
def Json.get? : Json → String → Option Json
  | .obj fields, key => go fields key
  | _, _ => none
where go : List (String × Json) → String → Option Json
  | [], _ => none
  | (k, v) :: rest, key => if k = key then some v else go rest key

/-- `Value::as_str`. -/
def Json.asStr? : Json → Option String
  | .str s => some s
  | _ => none

/-- `Value::as_u64`. -/
def Json.asNat? : Json → Option Nat
  | .num n => some n
  | _ => none

/-- Outcome of one deadline-bounded capability call
(`tokio::time::timeout(d, fut).await` where `fut` yields a `Result`). -/
inductive CallOutcome (α : Type) where
  | success (value : α) : CallOutcome α
  | upstreamError (msg : String) : CallOutcome α
  | timedOut : CallOutcome α

/-- The state of the external `matrix_sdk::Client` that the handlers
observe: the `logged_in()` flag and the room ids available from the
client's local store (used by `joined_rooms()` and `get_room`). -/
structure Client where
  loggedIn : Bool
  joinedRooms : List String
deriving DecidableEq

/-- src/api.rs, `Session`: `client: Option<Client>`, `error: Option<String>`. -/
structure Session where
  client : Option Client
  error : Option String
deriving DecidableEq

/-- The session registry: `HashMap<String, Session>` modelled as an
association list with leftmost-binding-wins lookup. -/
def Registry := List (String × Session)

/-- `sessions.get(&id)` / `sessions.contains_key(id)`. -/
def Registry.get? : Registry → String → Option Session
  | [], _ => none
  | (k, v) :: rest, id => if k = id then some v else Registry.get? rest id

/-- `sessions.insert(id, s)`: the new binding shadows any older one. -/
def Registry.insert (reg : Registry) (id : String) (s : Session) : Registry :=
  (id, s) :: reg

/-- `sessions.get_mut(id)` followed by a mutation `f` of the entry:
rewrites the visible (first) binding for `id`, if any. -/
def Registry.update : Registry → String → (Session → Session) → Registry
  | [], _, _ => []
  | (k, v) :: rest, id, f =>
    if k = id then (k, f v) :: rest else (k, v) :: Registry.update rest id f

/-- src/error.rs, `enum ApiError`, with each `String` payload standing for
the display string of the wrapped error value.  The last three variants
(`SessionNotFound`, `InvalidRoomId`, `RoomNotFound`) do not appear in the
`error.rs` enum itself but are referenced by the create/join/leave handlers
in src/api.rs; they are included here so those handlers can be embedded,
and they fall into the catch-all arm of `error_response` exactly as any
variant outside the two explicitly matched ones does. -/
inductive ApiError where
  | matrixError (s : String) : ApiError
  | invalidSession : ApiError
  | notLoggedIn : ApiError
  | io (s : String) : ApiError
  | reqwest (s : String) : ApiError
  | matrixSdk (s : String) : ApiError
  | http (s : String) : ApiError
  | serde (s : String) : ApiError
  | sessionNotFound : ApiError
  | invalidRoomId : ApiError
  | roomNotFound : ApiError
deriving DecidableEq

/-- The `thiserror` display strings of src/error.rs.  The three variants
absent from error.rs have no display attribute in the source; they are
rendered here by their bare name. -/
def ApiError.message : ApiError → String
  | .matrixError s => "Matrix SDK error: " ++ s
  | .invalidSession => "Invalid session ID"
  | .notLoggedIn => "Not logged in"
  | .io s => "IO error: " ++ s
  | .reqwest s => "Reqwest error: " ++ s
  | .matrixSdk s => "Matrix SDK error: " ++ s
  | .http s => "HTTP error: " ++ s
  | .serde s => "Serde error: " ++ s
  | .sessionNotFound => "SessionNotFound"
  | .invalidRoomId => "InvalidRoomId"
  | .roomNotFound => "RoomNotFound"

/-- src/error.rs, `error_response`: status code selection.  Only
`InvalidSession` and `NotLoggedIn` are matched explicitly; everything else
takes the `_ => INTERNAL_SERVER_ERROR` arm. -/
def ApiError.statusCode : ApiError → Nat
  | .invalidSession => 400
  | .notLoggedIn => 401
  | _ => 500

/-- An HTTP response: status code plus body. -/
structure HttpResponse where
  status : Nat
  body : Json

/-- src/error.rs, `error_response`: the rendered error response,
`HttpResponse::build(status).json(json!({"error": self.to_string()}))`. -/
def ApiError.errorResponse (e : ApiError) : HttpResponse :=
  { status := e.statusCode, body := .obj [("error", .str e.message)] }

/-- The actix layer: a handler's `Result<impl Responder, ApiError>` rendered
to the wire, with `Err` going through `ResponseError::error_response`. -/
def renderResult : Except ApiError HttpResponse → HttpResponse
  | .ok r => r
  | .error e => e.errorResponse

/-- A response status is an HTTP success (2xx). -/
def HttpResponse.isSuccess (r : HttpResponse) : Bool :=
  200 ≤ r.status && r.status < 300

/-- A response status is a client error (4xx). -/
def HttpResponse.isClientError (r : HttpResponse) : Bool :=
  400 ≤ r.status && r.status < 500

/-- A response status is a server error (5xx). -/
def HttpResponse.isServerError (r : HttpResponse) : Bool :=
  500 ≤ r.status && r.status < 600

/-! ## Handlers (src/api.rs) -/

/-- src/api.rs, `login_sso_start` (lines 49–70).  `sessionId` is the freshly
generated UUID; `parseUrl`, `newClient` and `getSsoUrl` are the outcomes of
`Url::parse` (error display string on failure), `Client::new` and
`get_sso_login_url`.  A successful `Client::new` yields a fresh handle that
is not logged in and has an empty store.  Returns the handler result
together with the registry after the call. -/
def login_sso_start (reg : Registry) (sessionId : String)
    (parseUrl : Except String Unit) (newClient : Except String Unit)
    (getSsoUrl : Except String String) :
    Except ApiError HttpResponse × Registry :=
  match parseUrl with
  | .error e => (.error (.matrixError e), reg)
  | .ok _ =>
    match newClient with
    | .error e => (.error (.http e), reg)
    | .ok _ =>
      match getSsoUrl with
      | .error e => (.error (.matrixError e), reg)
      | .ok ssoUrl =>
        (.ok { status := 200,
               body := .obj [("session_id", .str sessionId),
                             ("sso_url", .str ssoUrl)] },
         reg.insert sessionId { client := some { loggedIn := false, joinedRooms := [] },
                                error := none })

/-- src/api.rs, `login_sso_callback` (lines 72–103).  `tokenExchange` is the
outcome of `matrix_auth().login_token(login_token)` (no timeout wrapper in
the source); success flips the client's `logged_in()` flag and clears the
stored error, failure stores the error's display string.  This handler
returns `impl Responder` directly, so there is no `ApiError` channel. -/
def login_sso_callback (reg : Registry) (sessionId : String)
    (tokenExchange : Except String Unit) : HttpResponse × Registry :=
  match reg.get? sessionId with
  | none =>
    ({ status := 400, body := .str ("Invalid session ID: " ++ sessionId) }, reg)
  | some session =>
    match session.client with
    | some client =>
      match tokenExchange with
      | .ok _ =>
        ({ status := 200,
           body := .str "Login successful! You can now close this window and return to the application." },
         reg.update sessionId fun _ =>
           { client := some { client with loggedIn := true }, error := none })
      | .error e =>
        ({ status := 400, body := .str ("Login failed: " ++ e) },
         reg.update sessionId fun s => { s with error := some e })
    | none =>
      ({ status := 400, body := .str "Session doesn't have a client" }, reg)

/-- src/api.rs, `login_status` (lines 105–124): the status is derived from
the client's `logged_in()` flag first, then the stored error. -/
def login_status (reg : Registry) (sessionId : String) :
    Except ApiError HttpResponse :=
  match reg.get? sessionId with
  | none => .error .invalidSession
  | some session =>
    match session.client with
    | none => .error .invalidSession
    | some client =>
      if client.loggedIn then
        .ok { status := 200, body := .obj [("status", .str "logged_in")] }
      else
        match session.error with
        | some e =>
          .ok { status := 200,
                body := .obj [("status", .str "error"), ("error", .str e)] }
        | none =>
          .ok { status := 200, body := .obj [("status", .str "pending")] }

/-- One entry of `sync_response.rooms.join` as the sync handler reads it:
room id, unread-notification counts and timeline length. -/
structure SyncJoinedRoom where
  roomId : String
  unreadNotifications : Nat
  timelineEventsLen : Nat

/-- The part of `client.sync_once`'s response the handler reads. -/
structure SyncResponse where
  joinRooms : List SyncJoinedRoom
  nextBatch : String

/-- src/api.rs, `sync` (lines 126–193).  The fallback room list is gathered
from `client.joined_rooms()` before the bounded `sync_once` call; an
upstream error yields HTTP 200 with the fallback list, the sentinel token
`"failure_sync_token"` and a warning, a deadline expiry yields HTTP 200
with the fallback list, the sentinel `"timeout_sync_token"` and a warning. -/
def sync (reg : Registry) (sessionId : String)
    (syncOutcome : CallOutcome SyncResponse) : Except ApiError HttpResponse :=
  match reg.get? sessionId with
  | none => .error .invalidSession
  | some session =>
    match session.client with
    | none => .error .notLoggedIn
    | some client =>
      let fallbackRoomInfos : List Json :=
        client.joinedRooms.map fun roomId => .obj [("room_id", .str roomId)]
      match syncOutcome with
      | .success resp =>
        let roomsData : List Json := resp.joinRooms.map fun r =>
          .obj [("room_id", .str r.roomId),
                ("unread_notifications", .num r.unreadNotifications),
                ("timeline_events", .num r.timelineEventsLen)]
        .ok { status := 200,
              body := .obj [("rooms", .arr roomsData),
                            ("next_batch", .str resp.nextBatch)] }
      | .upstreamError e =>
        .ok { status := 200,
              body := .obj [("rooms", .arr fallbackRoomInfos),
                            ("next_batch", .str "failure_sync_token"),
                            ("error", .str ("Sync warning (continuing with basic room list): " ++ e))] }
      | .timedOut =>
        .ok { status := 200,
              body := .obj [("rooms", .arr fallbackRoomInfos),
                            ("next_batch", .str "timeout_sync_token"),
                            ("error", .str "Sync timed out (continuing with basic room list)")] }

/-- One entry of the rooms response: the per-room loop body of src/api.rs
lines 210–227.  `displayName roomId` is the 10-second-bounded
`room.display_name()` call; the `Ok(Ok(name))` arm keeps the name, every
other outcome (`Ok(Err(_))` or deadline expiry) degrades it to
`"Unknown"`. -/
def roomInfoOf (displayName : String → CallOutcome String)
    (roomId : String) : Json :=
  let name := match displayName roomId with
    | .success n => n
    | _ => "Unknown"
  .obj [("room_id", .str roomId), ("name", .str name)]

/-- src/api.rs, `rooms` (lines 195–246).  The inner future never returns
`Err`, so the `Ok(Err(e))` arm of the outer match is dead code; the outer
30-second bound is modelled by `overallTimedOut`, and its expiry yields
HTTP 200 with an empty list (and no warning field). -/
def rooms (reg : Registry) (sessionId : String)
    (displayName : String → CallOutcome String) (overallTimedOut : Bool) :
    Except ApiError HttpResponse :=
  match reg.get? sessionId with
  | none => .error .invalidSession
  | some session =>
    match session.client with
    | none => .error .notLoggedIn
    | some client =>
      if overallTimedOut then
        .ok { status := 200, body := .arr [] }
      else
        .ok { status := 200,
              body := .arr (client.joinedRooms.map (roomInfoOf displayName)) }

/-- Model of `ruma`'s `OwnedRoomId::try_from` (external dependency): a room
identifier must start with the `!` sigil and contain a `:` separating the
opaque localpart from the server name. -/
def isValidRoomId (s : String) : Bool :=
  s.data.head? == some '!' && s.data.contains ':'

/-- src/api.rs, `room_messages` (lines 248–321), extraction of one timeline
event (lines 283–307): the raw event is deserialized to a JSON value
(`none` models a `deserialize_as` failure, such events are skipped), and
sender / body / event id / timestamp are read with the source's defaults. -/
def extractMessage (value : Json) : Json :=
  let sender := ((value.get? "sender").bind Json.asStr?).getD "Unknown"
  let body := match value.get? "content" with
    | some content => ((content.get? "body").bind Json.asStr?).getD "No content"
    | none => "No content"
  let eventId := ((value.get? "event_id").bind Json.asStr?).getD "Unknown"
  let timestamp := ((value.get? "origin_server_ts").bind Json.asNat?).getD 0
  .obj [("sender", .str sender), ("body", .str body),
        ("event_id", .str eventId), ("timestamp", .num timestamp)]

/-- src/api.rs, `room_messages` (lines 248–321).  `messagesOutcome` is the
30-second-bounded `room.messages(options)` call, each chunk element being
the (possibly failed) deserialization of one raw event.  An upstream error
is propagated as `ApiError::MatrixSdk`, a deadline expiry as
`ApiError::MatrixError("Request for messages timed out")`. -/
def room_messages (reg : Registry) (sessionId roomIdStr : String)
    (messagesOutcome : CallOutcome (List (Option Json))) :
    Except ApiError HttpResponse :=
  match reg.get? sessionId with
  | none => .error .invalidSession
  | some session =>
    match session.client with
    | none => .error .notLoggedIn
    | some client =>
      if isValidRoomId roomIdStr then
        if client.joinedRooms.contains roomIdStr then
          match messagesOutcome with
          | .success chunk =>
            .ok { status := 200,
                  body := .arr ((chunk.filterMap id).map extractMessage) }
          | .upstreamError e => .error (.matrixSdk e)
          | .timedOut => .error (.matrixError "Request for messages timed out")
        else .error (.matrixError "Room not found")
      else .error (.matrixError "Invalid room ID format")

/-- src/api.rs, `send_message` (lines 323–370).  `sendOutcome` is the
5-second-bounded `room.send(content)` call, yielding the new event id on
success.  Both failure modes are propagated as `ApiError::MatrixError` with
distinct messages; no fallback is substituted. -/
def send_message (reg : Registry) (sessionId roomIdStr _msgBody : String)
    (sendOutcome : CallOutcome String) : Except ApiError HttpResponse :=
  match reg.get? sessionId with
  | none => .error .invalidSession
  | some session =>
    match session.client with
    | none => .error .notLoggedIn
    | some client =>
      if isValidRoomId roomIdStr then
        if client.joinedRooms.contains roomIdStr then
          match sendOutcome with
          | .success eventId =>
            .ok { status := 200,
                  body := .obj [("status", .str "success"),
                                ("event_id", .str eventId)] }
          | .upstreamError e =>
            .error (.matrixError ("Failed to send message: " ++ e))
          | .timedOut =>
            .error (.matrixError "Request to send message timed out")
        else .error (.matrixError "Room not found")
      else .error (.matrixError "Invalid room ID format")

/-- src/api.rs, `create_room` (lines 372–416).  `createOutcome` is the
10-second-bounded `client.create_room(request)` call, yielding the new
room's id.  Note the session-lookup error here is `ApiError::SessionNotFound`,
unlike the `InvalidSession` used by the five handlers above. -/
def create_room (reg : Registry) (sessionId : String)
    (_nameField _topicField : Option String)
    (createOutcome : CallOutcome String) : Except ApiError HttpResponse :=
  match reg.get? sessionId with
  | none => .error .sessionNotFound
  | some session =>
    match session.client with
    | none => .error .notLoggedIn
    | some _ =>
      match createOutcome with
      | .success roomId =>
        .ok { status := 200, body := .obj [("room_id", .str roomId)] }
      | .upstreamError e =>
        .error (.matrixError ("Failed to create room: " ++ e))
      | .timedOut =>
        .error (.matrixError "Request to create room timed out")

/-- src/api.rs, `join_room` (lines 418–453).  `joinOutcome` is the
10-second-bounded `client.join_room_by_id` call.  An invalid room id is
`ApiError::InvalidRoomId` here (not `MatrixError` as in messages/send). -/
def join_room (reg : Registry) (sessionId roomIdStr : String)
    (joinOutcome : CallOutcome Unit) : Except ApiError HttpResponse :=
  match reg.get? sessionId with
  | none => .error .sessionNotFound
  | some session =>
    match session.client with
    | none => .error .notLoggedIn
    | some _ =>
      if isValidRoomId roomIdStr then
        match joinOutcome with
        | .success _ =>
          .ok { status := 200,
                body := .obj [("status", .str "success"),
                              ("room_id", .str roomIdStr)] }
        | .upstreamError e =>
          .error (.matrixError ("Failed to join room: " ++ e))
        | .timedOut =>
          .error (.matrixError "Request to join room timed out")
      else .error .invalidRoomId

/-- src/api.rs, `leave_room` (lines 455–493).  `leaveOutcome` is the
10-second-bounded `room.leave()` call; a room absent from the client's
store is `ApiError::RoomNotFound`. -/
def leave_room (reg : Registry) (sessionId roomIdStr : String)
    (leaveOutcome : CallOutcome Unit) : Except ApiError HttpResponse :=
  match reg.get? sessionId with
  | none => .error .sessionNotFound
  | some session =>
    match session.client with
    | none => .error .notLoggedIn
    | some client =>
      if isValidRoomId roomIdStr then
        if client.joinedRooms.contains roomIdStr then
          match leaveOutcome with
          | .success _ =>
            .ok { status := 200,
                  body := .obj [("status", .str "success"),
                                ("room_id", .str roomIdStr)] }
          | .upstreamError e =>
            .error (.matrixError ("Failed to leave room: " ++ e))
          | .timedOut =>
            .error (.matrixError "Request to leave room timed out")
        else .error .roomNotFound
      else .error .invalidRoomId

/-! ## Lock/network event traces

In every handler of src/api.rs the `RwLockReadGuard` (or, in
`login_sso_callback`, the `RwLockWriteGuard`) obtained from
`state.sessions` is bound to a local that lives until the handler returns,
and the borrowed `client` keeps it alive across the awaited capability
call; the guard's destructor (the lock release) runs at scope exit.  The
traces below transcribe, per handler and per branch, the order of lock and
network events as they occur in the source. -/

/-- One synchronisation-relevant event of a handler's execution. -/
inductive Event where
  | acquireRead : Event
  | acquireWrite : Event
  | releaseLock : Event
  | networkCall (name : String) : Event
deriving DecidableEq

/-- Whether some network call in the trace happens while at least one lock
is held (`depth` counts currently held locks). -/
def networkCallUnderLockAux : List Event → Nat → Bool
  | [], _ => false
  | .acquireRead :: rest, depth => networkCallUnderLockAux rest (depth + 1)
  | .acquireWrite :: rest, depth => networkCallUnderLockAux rest (depth + 1)
  | .releaseLock :: rest, depth => networkCallUnderLockAux rest (depth - 1)
  | .networkCall _ :: rest, depth =>
    decide (0 < depth) || networkCallUnderLockAux rest depth

/-- A network call occurs somewhere inside a lock-held region. -/
def networkCallUnderLock (trace : List Event) : Bool :=
  networkCallUnderLockAux trace 0

/-- Trace of `login_sso_start` (src/api.rs lines 49–70): both capability
calls (`Client::new`, `get_sso_login_url`) happen before the write lock is
taken at line 64; the insert happens under the lock with no I/O. -/
def login_sso_startTrace (parseUrl newClient : Except String Unit)
    (getSsoUrl : Except String String) : List Event :=
  match parseUrl with
  | .error _ => []
  | .ok _ =>
    match newClient with
    | .error _ => [.networkCall "client_new"]
    | .ok _ =>
      match getSsoUrl with
      | .error _ => [.networkCall "client_new", .networkCall "get_sso_login_url"]
      | .ok _ => [.networkCall "client_new", .networkCall "get_sso_login_url",
                  .acquireWrite, .releaseLock]

/-- Trace of `login_sso_callback` (src/api.rs lines 72–103): the write lock
is taken at line 80 and the guard lives to the end of the handler; the
`login_token` exchange at line 89 is awaited while it is held. -/
def login_sso_callbackTrace (reg : Registry) (sessionId : String) : List Event :=
  match reg.get? sessionId with
  | none => [.acquireWrite, .releaseLock]
  | some session =>
    match session.client with
    | some _ => [.acquireWrite, .networkCall "login_token", .releaseLock]
    | none => [.acquireWrite, .releaseLock]

/-- Trace of `sync` (src/api.rs lines 126–193): the read lock is taken at
line 132, `client` borrows from the guard, and the bounded `sync_once`
call at lines 149–153 is awaited while the guard is still held; the guard
drops at handler exit. -/
def syncTrace (reg : Registry) (sessionId : String) : List Event :=
  match reg.get? sessionId with
  | none => [.acquireRead, .releaseLock]
  | some session =>
    match session.client with
    | none => [.acquireRead, .releaseLock]
    | some _ => [.acquireRead, .networkCall "sync_once", .releaseLock]

/-- Trace of `send_message` (src/api.rs lines 323–370): read lock at line
330, bounded `room.send` awaited at lines 350–354 under the guard. -/
def send_messageTrace (reg : Registry) (sessionId roomIdStr : String) : List Event :=
  match reg.get? sessionId with
  | none => [.acquireRead, .releaseLock]
  | some session =>
    match session.client with
    | none => [.acquireRead, .releaseLock]
    | some client =>
      if isValidRoomId roomIdStr && client.joinedRooms.contains roomIdStr then
        [.acquireRead, .networkCall "send", .releaseLock]
      else [.acquireRead, .releaseLock]

/-- Trace of `rooms` (src/api.rs lines 195–246): the read lock is taken at
line 201, and every 10-second-bounded `room.display_name()` call of the
inner future (lines 212–216) is awaited while the guard is held; an
expiring overall bound merely truncates the suffix of display-name calls,
so any room reached before it still produces its call under the lock. -/
def roomsTrace (reg : Registry) (sessionId : String) : List Event :=
  match reg.get? sessionId with
  | none => [.acquireRead, .releaseLock]
  | some session =>
    match session.client with
    | none => [.acquireRead, .releaseLock]
    | some client =>
      .acquireRead ::
        ((client.joinedRooms.map fun _ => Event.networkCall "display_name") ++
          [.releaseLock])

/-- Trace of `room_messages` (src/api.rs lines 248–321): read lock at line
254, bounded `room.messages` awaited at lines 270–274 under the guard. -/
def room_messagesTrace (reg : Registry) (sessionId roomIdStr : String) :
    List Event :=
  match reg.get? sessionId with
  | none => [.acquireRead, .releaseLock]
  | some session =>
    match session.client with
    | none => [.acquireRead, .releaseLock]
    | some client =>
      if isValidRoomId roomIdStr && client.joinedRooms.contains roomIdStr then
        [.acquireRead, .networkCall "messages", .releaseLock]
      else [.acquireRead, .releaseLock]

/-- Trace of `create_room` (src/api.rs lines 372–416): read lock at line
379, bounded `client.create_room` awaited at lines 397–401 under the
guard. -/
def create_roomTrace (reg : Registry) (sessionId : String) : List Event :=
  match reg.get? sessionId with
  | none => [.acquireRead, .releaseLock]
  | some session =>
    match session.client with
    | none => [.acquireRead, .releaseLock]
    | some _ => [.acquireRead, .networkCall "create_room", .releaseLock]

/-- Trace of `join_room` (src/api.rs lines 418–453): read lock at line 424,
bounded `client.join_room_by_id` awaited at lines 433–437 under the
guard. -/
def join_roomTrace (reg : Registry) (sessionId roomIdStr : String) :
    List Event :=
  match reg.get? sessionId with
  | none => [.acquireRead, .releaseLock]
  | some session =>
    match session.client with
    | none => [.acquireRead, .releaseLock]
    | some _ =>
      if isValidRoomId roomIdStr then
        [.acquireRead, .networkCall "join_room_by_id", .releaseLock]
      else [.acquireRead, .releaseLock]

/-- Trace of `leave_room` (src/api.rs lines 455–493): read lock at line
461, bounded `room.leave()` awaited at lines 473–477 under the guard. -/
def leave_roomTrace (reg : Registry) (sessionId roomIdStr : String) :
    List Event :=
  match reg.get? sessionId with
  | none => [.acquireRead, .releaseLock]
  | some session =>
    match session.client with
    | none => [.acquireRead, .releaseLock]
    | some client =>
      if isValidRoomId roomIdStr && client.joinedRooms.contains roomIdStr then
        [.acquireRead, .networkCall "leave", .releaseLock]
      else [.acquireRead, .releaseLock]

/-! ## The system as a transition system over the registry

Only `login_sso_start` and `login_sso_callback` return a registry; every
other handler takes `state.sessions` by shared reference and performs no
insertion or removal.  `applyOp` is the registry-after-one-operation
function for the whole HTTP surface. -/

/-- One inbound operation of the HTTP surface, together with the capability
outcomes it encounters. -/
inductive Op where
  | ssoStart (sessionId : String) (parseUrl newClient : Except String Unit)
      (getSsoUrl : Except String String) : Op
  | ssoCallback (sessionId : String) (tokenExchange : Except String Unit) : Op
  | statusOp (sessionId : String) : Op
  | syncOp (sessionId : String) (outcome : CallOutcome SyncResponse) : Op
  | roomsOp (sessionId : String) (displayName : String → CallOutcome String)
      (overallTimedOut : Bool) : Op
  | messagesOp (sessionId roomIdStr : String)
      (outcome : CallOutcome (List (Option Json))) : Op
  | sendOp (sessionId roomIdStr body : String) (outcome : CallOutcome String) : Op
  | createOp (sessionId : String) (nameField topicField : Option String)
      (outcome : CallOutcome String) : Op
  | joinOp (sessionId roomIdStr : String) (outcome : CallOutcome Unit) : Op
  | leaveOp (sessionId roomIdStr : String) (outcome : CallOutcome Unit) : Op

/-- The registry after one operation. -/
def applyOp (reg : Registry) : Op → Registry
  | .ssoStart sid pu nc su => (login_sso_start reg sid pu nc su).2
  | .ssoCallback sid tex => (login_sso_callback reg sid tex).2
  | .statusOp _ => reg
  | .syncOp _ _ => reg
  | .roomsOp _ _ _ => reg
  | .messagesOp _ _ _ => reg
  | .sendOp _ _ _ _ => reg
  | .createOp _ _ _ _ => reg
  | .joinOp _ _ _ => reg
  | .leaveOp _ _ _ => reg

/-- The registry reached from the empty initial registry of src/main.rs
(`Arc::new(RwLock::new(HashMap::new()))`) by a sequence of operations. -/
def runOps (ops : List Op) : Registry :=
  ops.foldl applyOp []

/-- Every session stored in the registry carries a present client handle. -/
def Registry.allClientsPresent (reg : Registry) : Prop :=
  ∀ id s, reg.get? id = some s → s.client.isSome

/-! ## Registry lemmas -/

theorem Registry.get?_insert_self (reg : Registry) (id : String) (s : Session) :
    (reg.insert id s).get? id = some s := by
  simp [Registry.insert, Registry.get?]

theorem Registry.get?_insert_isSome (reg : Registry) (id id' : String)
    (s : Session) (h : (reg.get? id).isSome) :
    ((reg.insert id' s).get? id).isSome := by
  by_cases hid : id' = id <;> simp [Registry.insert, Registry.get?, hid, h]

theorem Registry.get?_update_self (reg : Registry) (id : String)
    (f : Session → Session) (s : Session) (h : reg.get? id = some s) :
    (reg.update id f).get? id = some (f s) := by
  induction reg with
  | nil => simp [Registry.get?] at h
  | cons kv rest ih =>
    by_cases hk : kv.1 = id
    · simp [Registry.get?, hk] at h
      simp [Registry.update, Registry.get?, hk, h]
    · simp [Registry.get?, hk] at h
      simp [Registry.update, Registry.get?, hk, ih h]

theorem Registry.get?_update_ne (reg : Registry) (id id' : String)
    (f : Session → Session) (h : id' ≠ id) :
    (reg.update id' f).get? id = reg.get? id := by
  induction reg with
  | nil => simp [Registry.update]
  | cons kv rest ih =>
    by_cases hk : kv.1 = id'
    · simp [Registry.update, Registry.get?, hk, h, Ne.symm h]
    · by_cases hd : kv.1 = id <;>
        simp [Registry.update, Registry.get?, hk, hd, ih, Ne.symm h]

theorem Registry.get?_update_isSome (reg : Registry) (id id' : String)
    (f : Session → Session) (h : (reg.get? id).isSome) :
    ((reg.update id' f).get? id).isSome := by
  by_cases hid : id' = id
  · subst hid
    rcases Option.isSome_iff_exists.mp h with ⟨s, hs⟩
    simp [Registry.get?_update_self reg id' f s hs]
  · simp [Registry.get?_update_ne reg id id' f hid, h]

theorem Registry.get?_update_none (reg : Registry) (id : String)
    (f : Session → Session) (h : reg.get? id = none) :
    (reg.update id f).get? id = none := by
  induction reg with
  | nil => simp [Registry.update, Registry.get?]
  | cons kv rest ih =>
    by_cases hk : kv.1 = id
    · simp [Registry.get?, hk] at h
    · simp [Registry.get?, hk] at h
      simp [Registry.update, Registry.get?, hk, ih h]

theorem Registry.allClientsPresent_insert (reg : Registry) (sid : String)
    (s : Session) (hreg : reg.allClientsPresent) (hs : s.client.isSome) :
    (reg.insert sid s).allClientsPresent := by
  intro id t ht
  by_cases hid : sid = id
  · simp [Registry.insert, Registry.get?, hid] at ht
    exact ht ▸ hs
  · simp [Registry.insert, Registry.get?, hid] at ht
    exact hreg id t ht

theorem Registry.allClientsPresent_update (reg : Registry) (sid : String)
    (f : Session → Session) (hreg : reg.allClientsPresent)
    (hf : ∀ s, s.client.isSome → (f s).client.isSome) :
    (reg.update sid f).allClientsPresent := by
  intro id t ht
  by_cases hid : sid = id
  · subst hid
    cases hg : reg.get? sid with
    | none => rw [Registry.get?_update_none reg sid f hg] at ht; cases ht
    | some s0 =>
      rw [Registry.get?_update_self reg sid f s0 hg] at ht
      cases ht
      exact hf s0 (hreg sid s0 hg)
  · rw [Registry.get?_update_ne reg id sid f hid] at ht
    exact hreg id t ht

/-- One operation never removes a registry entry. -/
theorem applyOp_preserves_get?_isSome (reg : Registry) (op : Op) (id : String)
    (h : (reg.get? id).isSome) : ((applyOp reg op).get? id).isSome := by
  cases op with
  | ssoStart sid pu nc su =>
    cases pu with
    | error e => simpa [applyOp, login_sso_start] using h
    | ok _ =>
      cases nc with
      | error e => simpa [applyOp, login_sso_start] using h
      | ok _ =>
        cases su with
        | error e => simpa [applyOp, login_sso_start] using h
        | ok u =>
          simp only [applyOp, login_sso_start]
          exact Registry.get?_insert_isSome reg id sid _ h
  | ssoCallback sid tex =>
    cases hg : reg.get? sid with
    | none => simpa [applyOp, login_sso_callback, hg] using h
    | some session =>
      cases hc : session.client with
      | none => simpa [applyOp, login_sso_callback, hg, hc] using h
      | some client =>
        cases tex with
        | ok _ =>
          simp only [applyOp, login_sso_callback, hg, hc]
          exact Registry.get?_update_isSome reg id sid _ h
        | error e =>
          simp only [applyOp, login_sso_callback, hg, hc]
          exact Registry.get?_update_isSome reg id sid _ h
  | statusOp sid => simpa [applyOp] using h
  | syncOp sid o => simpa [applyOp] using h
  | roomsOp sid dn t => simpa [applyOp] using h
  | messagesOp sid rid o => simpa [applyOp] using h
  | sendOp sid rid b o => simpa [applyOp] using h
  | createOp sid n t o => simpa [applyOp] using h
  | joinOp sid rid o => simpa [applyOp] using h
  | leaveOp sid rid o => simpa [applyOp] using h

/-- One operation preserves the all-clients-present invariant. -/
theorem applyOp_preserves_clientsPresent (reg : Registry) (op : Op)
    (hreg : reg.allClientsPresent) : (applyOp reg op).allClientsPresent := by
  cases op with
  | ssoStart sid pu nc su =>
    cases pu with
    | error e => simpa [applyOp, login_sso_start] using hreg
    | ok _ =>
      cases nc with
      | error e => simpa [applyOp, login_sso_start] using hreg
      | ok _ =>
        cases su with
        | error e => simpa [applyOp, login_sso_start] using hreg
        | ok u =>
          simp only [applyOp, login_sso_start]
          exact Registry.allClientsPresent_insert reg sid _ hreg rfl
  | ssoCallback sid tex =>
    cases hg : reg.get? sid with
    | none => simpa [applyOp, login_sso_callback, hg] using hreg
    | some session =>
      cases hc : session.client with
      | none => simpa [applyOp, login_sso_callback, hg, hc] using hreg
      | some client =>
        cases tex with
        | ok _ =>
          simp only [applyOp, login_sso_callback, hg, hc]
          exact Registry.allClientsPresent_update reg sid _ hreg (fun s _ => rfl)
        | error e =>
          simp only [applyOp, login_sso_callback, hg, hc]
          exact Registry.allClientsPresent_update reg sid _ hreg (fun s hs => hs)
  | statusOp sid => simpa [applyOp] using hreg
  | syncOp sid o => simpa [applyOp] using hreg
  | roomsOp sid dn t => simpa [applyOp] using hreg
  | messagesOp sid rid o => simpa [applyOp] using hreg
  | sendOp sid rid b o => simpa [applyOp] using hreg
  | createOp sid n t o => simpa [applyOp] using hreg
  | joinOp sid rid o => simpa [applyOp] using hreg
  | leaveOp sid rid o => simpa [applyOp] using hreg

/-! ## Concrete sample data for witnesses and counterexamples -/

/-- A client as it looks after the SDK has synced one joined room. -/
def sampleClient : Client :=
  { loggedIn := false, joinedRooms := ["!room:example.org"] }

/-- A session created through `login_sso_start`, one room known. -/
def sampleSession : Session :=
  { client := some sampleClient, error := none }

/-- A registry holding exactly the sample session under id `"sid"`. -/
def sampleReg : Registry := [("sid", sampleSession)]

/-! ## Claims -/

/-- C4: Immediately after `startLogin`, `queryStatus` on the new session id
returns `pending`.  After a `completeLogin` whose token the capability
rejects, the callback itself reports failure and `queryStatus` returns an
error status whose message equals the capability's reported error text.  A
subsequent `completeLogin` on the same id whose token the capability
accepts then makes `queryStatus` return `logged_in`: failure is not
terminal. -/
theorem c4_login_state_machine (reg : Registry) (sid ssoUrl errMsg : String) :
    login_status (login_sso_start reg sid (.ok ()) (.ok ()) (.ok ssoUrl)).2 sid =
      .ok { status := 200, body := .obj [("status", .str "pending")] } ∧
    (login_sso_callback (login_sso_start reg sid (.ok ()) (.ok ()) (.ok ssoUrl)).2
        sid (.error errMsg)).1.status = 400 ∧
    login_status
        (login_sso_callback (login_sso_start reg sid (.ok ()) (.ok ()) (.ok ssoUrl)).2
          sid (.error errMsg)).2 sid =
      .ok { status := 200,
            body := .obj [("status", .str "error"), ("error", .str errMsg)] } ∧
    login_status
        (login_sso_callback
          (login_sso_callback (login_sso_start reg sid (.ok ()) (.ok ()) (.ok ssoUrl)).2
            sid (.error errMsg)).2 sid (.ok ())).2 sid =
      .ok { status := 200, body := .obj [("status", .str "logged_in")] } := by
  refine ⟨?_, ?_, ?_, ?_⟩ <;>
    simp [login_sso_start, login_sso_callback, login_status,
          Registry.insert, Registry.get?, Registry.update]

/-- C9: If `startLogin` fails at any step — homeserver URL parsing,
remote-client construction, or SSO-URL retrieval — the session registry is
left unchanged and the handler returns that step's error, so no session id
becomes observable; a session (with a present client handle) is inserted
exactly when all steps have succeeded. -/
theorem c9_start_failure_atomic (reg : Registry) (sid : String) :
    (∀ e nc su, (login_sso_start reg sid (.error e) nc su).2 = reg ∧
      (login_sso_start reg sid (.error e) nc su).1 = .error (.matrixError e)) ∧
    (∀ e su, (login_sso_start reg sid (.ok ()) (.error e) su).2 = reg ∧
      (login_sso_start reg sid (.ok ()) (.error e) su).1 = .error (.http e)) ∧
    (∀ e, (login_sso_start reg sid (.ok ()) (.ok ()) (.error e)).2 = reg ∧
      (login_sso_start reg sid (.ok ()) (.ok ()) (.error e)).1 =
        .error (.matrixError e)) ∧
    (∀ u, ((login_sso_start reg sid (.ok ()) (.ok ()) (.ok u)).2).get? sid =
      some { client := some { loggedIn := false, joinedRooms := [] },
             error := none }) := by
  refine ⟨?_, ?_, ?_, ?_⟩ <;> intros <;>
    simp [login_sso_start, Registry.insert, Registry.get?]

/-- C8: Once a session has been inserted, it remains retrievable by its id:
no operation of the HTTP surface removes, replaces by absence, or expires a
registry entry, so a lookup of a previously created id never comes back
empty — after one operation, or after any sequence of operations. -/
theorem c8_sessions_never_removed :
    (∀ reg op id, (Registry.get? reg id).isSome →
      ((applyOp reg op).get? id).isSome) ∧
    (∀ (ops : List Op) (reg : Registry) (id : String),
      (Registry.get? reg id).isSome →
      ((ops.foldl applyOp reg).get? id).isSome) := by
  constructor
  · exact fun reg op id h => applyOp_preserves_get?_isSome reg op id h
  · intro ops
    induction ops with
    | nil => exact fun reg id h => h
    | cons op rest ih =>
      exact fun reg id h =>
        ih (applyOp reg op) id (applyOp_preserves_get?_isSome reg op id h)

/-- Witness for C8: the sample session survives a failing callback. -/
theorem c8_witness :
    ((applyOp sampleReg (.ssoCallback "sid" (.error "boom"))).get? "sid").isSome := by
  exact c8_sessions_never_removed.1 sampleReg (.ssoCallback "sid" (.error "boom"))
    "sid" (by decide)

/-- C6: For a session id that was never created, every session-scoped
operation fails with the session-lookup error rather than succeeding or
returning any other error: `InvalidSession` for login status, sync, rooms,
messages and send, and the `SessionNotFound` spelling used by the
create/join/leave handlers. -/
theorem c6_unknown_session (reg : Registry) (sid : String)
    (h : reg.get? sid = none) :
    login_status reg sid = .error .invalidSession ∧
    (∀ o, sync reg sid o = .error .invalidSession) ∧
    (∀ dn t, rooms reg sid dn t = .error .invalidSession) ∧
    (∀ rid o, room_messages reg sid rid o = .error .invalidSession) ∧
    (∀ rid b o, send_message reg sid rid b o = .error .invalidSession) ∧
    (∀ n t o, create_room reg sid n t o = .error .sessionNotFound) ∧
    (∀ rid o, join_room reg sid rid o = .error .sessionNotFound) ∧
    (∀ rid o, leave_room reg sid rid o = .error .sessionNotFound) := by
  refine ⟨?_, ?_, ?_, ?_, ?_, ?_, ?_, ?_⟩ <;> intros <;>
    simp [login_status, sync, rooms, room_messages, send_message,
          create_room, join_room, leave_room, h]

/-- Witness for C6: the empty registry knows no session. -/
theorem c6_witness :
    login_status ([] : Registry) "ghost" = .error .invalidSession := by
  exact (c6_unknown_session ([] : Registry) "ghost" rfl).1

/-- C2: For the strict write `send_message`, an upstream error and a
deadline expiry each surface as a failure with its own distinguishing
message — the two messages can never coincide — and the rendered response
is never a success, never carries an `event_id`, and never claims a
`status` of success; no fallback value is substituted. -/
theorem c2_send_strict (reg : Registry) (sid rid b : String) (c : Client)
    (err : Option String)
    (h : reg.get? sid = some { client := some c, error := err })
    (hrid : isValidRoomId rid = true)
    (hmem : c.joinedRooms.contains rid = true) :
    (∀ e, send_message reg sid rid b (.upstreamError e) =
      .error (.matrixError ("Failed to send message: " ++ e))) ∧
    send_message reg sid rid b .timedOut =
      .error (.matrixError "Request to send message timed out") ∧
    (∀ e, ("Failed to send message: " ++ e) ≠
      "Request to send message timed out") ∧
    (∀ e, (renderResult (send_message reg sid rid b (.upstreamError e))).isSuccess = false ∧
      (renderResult (send_message reg sid rid b (.upstreamError e))).body.get? "event_id" = none ∧
      (renderResult (send_message reg sid rid b (.upstreamError e))).body.get? "status" = none) ∧
    (renderResult (send_message reg sid rid b .timedOut)).isSuccess = false ∧
    (renderResult (send_message reg sid rid b .timedOut)).body.get? "event_id" = none ∧
    (renderResult (send_message reg sid rid b .timedOut)).body.get? "status" = none := by
  have hm : rid ∈ c.joinedRooms := by simpa using hmem
  refine ⟨?_, ?_, ?_, ?_, ?_, ?_, ?_⟩
  · intro e
    simp [send_message, h, hrid, hm]
  · simp [send_message, h, hrid, hm]
  · intro e heq
    rw [String.ext_iff, String.data_append] at heq
    simp at heq
  · intro e
    refine ⟨?_, ?_, ?_⟩ <;>
      simp [send_message, h, hrid, hm, renderResult, ApiError.errorResponse,
            ApiError.statusCode, ApiError.message, HttpResponse.isSuccess,
            Json.get?, Json.get?.go]
  · simp [send_message, h, hrid, hm, renderResult, ApiError.errorResponse,
          ApiError.statusCode, HttpResponse.isSuccess]
  · simp [send_message, h, hrid, hm, renderResult, ApiError.errorResponse,
          ApiError.message, Json.get?, Json.get?.go]
  · simp [send_message, h, hrid, hm, renderResult, ApiError.errorResponse,
          ApiError.message, Json.get?, Json.get?.go]

/-- Witness for C2: the sample session, the sample room and a timed-out
send yield the timeout failure. -/
theorem c2_witness :
    send_message sampleReg "sid" "!room:example.org" "hello" .timedOut =
      .error (.matrixError "Request to send message timed out") := by
  exact (c2_send_strict sampleReg "sid" "!room:example.org" "hello" sampleClient
    none (by decide) (by decide) (by decide)).2.1

/-- C3: `sync` returns a continuation token on every outcome: the
upstream's own token on success, the sentinel `"failure_sync_token"` on an
upstream error and the distinct sentinel `"timeout_sync_token"` on a
deadline expiry; on both degraded outcomes the response is an HTTP success
carrying the fallback room list and a non-empty warning field. -/
theorem c3_sync_token (reg : Registry) (sid : String) (c : Client)
    (err : Option String)
    (h : reg.get? sid = some { client := some c, error := err }) :
    (∀ resp, (renderResult (sync reg sid (.success resp))).isSuccess = true ∧
      (renderResult (sync reg sid (.success resp))).body.get? "next_batch" =
        some (.str resp.nextBatch)) ∧
    (∀ e, (renderResult (sync reg sid (.upstreamError e))).isSuccess = true ∧
      (renderResult (sync reg sid (.upstreamError e))).body.get? "next_batch" =
        some (.str "failure_sync_token") ∧
      (renderResult (sync reg sid (.upstreamError e))).body.get? "rooms" =
        some (.arr (c.joinedRooms.map fun r => .obj [("room_id", .str r)])) ∧
      ∃ w, (renderResult (sync reg sid (.upstreamError e))).body.get? "error" =
        some (.str w) ∧ 0 < w.length) ∧
    ((renderResult (sync reg sid .timedOut)).isSuccess = true ∧
      (renderResult (sync reg sid .timedOut)).body.get? "next_batch" =
        some (.str "timeout_sync_token") ∧
      (renderResult (sync reg sid .timedOut)).body.get? "rooms" =
        some (.arr (c.joinedRooms.map fun r => .obj [("room_id", .str r)])) ∧
      ∃ w, (renderResult (sync reg sid .timedOut)).body.get? "error" =
        some (.str w) ∧ 0 < w.length) ∧
    ("timeout_sync_token" : String) ≠ "failure_sync_token" := by
  refine ⟨?_, ?_, ⟨?_, ?_, ?_, ?_⟩, ?_⟩
  · intro resp
    constructor <;>
      simp [sync, h, renderResult, HttpResponse.isSuccess, Json.get?, Json.get?.go]
  · intro e
    refine ⟨?_, ?_, ?_, ?_⟩
    · simp [sync, h, renderResult, HttpResponse.isSuccess]
    · simp [sync, h, renderResult, Json.get?, Json.get?.go]
    · simp [sync, h, renderResult, Json.get?, Json.get?.go]
    · refine ⟨"Sync warning (continuing with basic room list): " ++ e, ?_, ?_⟩
      · simp [sync, h, renderResult, Json.get?, Json.get?.go]
      · rw [String.length_append]
        have : 0 < "Sync warning (continuing with basic room list): ".length := by
          decide
        omega
  · simp [sync, h, renderResult, HttpResponse.isSuccess]
  · simp [sync, h, renderResult, Json.get?, Json.get?.go]
  · simp [sync, h, renderResult, Json.get?, Json.get?.go]
  · exact ⟨"Sync timed out (continuing with basic room list)", by
      simp [sync, h, renderResult, Json.get?, Json.get?.go], by decide⟩
  · decide

/-- Witness for C3: the sample session's timed-out sync carries the
timeout sentinel token. -/
theorem c3_witness :
    (renderResult (sync sampleReg "sid" .timedOut)).body.get? "next_batch" =
      some (.str "timeout_sync_token") := by
  exact (c3_sync_token sampleReg "sid" sampleClient none (by decide)).2.2.1.2.1

/-- C1 counterexample: the list-messages operation is claimed degradable,
but a timed-out `room.messages` call on an existing session and known room
is propagated as an error and rendered as HTTP 500 — not an HTTP success
with a fallback payload. -/
theorem c1_counterexample :
    (renderResult (room_messages sampleReg "sid" "!room:example.org" .timedOut)).status = 500 ∧
    (renderResult (room_messages sampleReg "sid" "!room:example.org" .timedOut)).isSuccess = false := by
  exact ⟨by decide, by decide⟩

/-- C1 (amended): Of the three reads, only `sync` is fully degradable —
upstream error and deadline expiry both yield an HTTP success carrying the
fallback room list and a non-empty warning.  The rooms endpoint degrades
its overall deadline expiry to an HTTP success with an empty list but no
warning field, and its per-room display-name failures to entries named
`"Unknown"` in an HTTP success.  The messages endpoint is not degradable
at all: both failure outcomes are propagated and render as server
errors. -/
theorem c1_amended_degradation (reg : Registry) (sid : String) (c : Client)
    (err : Option String)
    (h : reg.get? sid = some { client := some c, error := err }) :
    (∀ e, (renderResult (sync reg sid (.upstreamError e))).isSuccess = true ∧
      (renderResult (sync reg sid (.upstreamError e))).body.get? "rooms" =
        some (.arr (c.joinedRooms.map fun r => .obj [("room_id", .str r)])) ∧
      ∃ w, (renderResult (sync reg sid (.upstreamError e))).body.get? "error" =
        some (.str w) ∧ 0 < w.length) ∧
    ((renderResult (sync reg sid .timedOut)).isSuccess = true ∧
      (renderResult (sync reg sid .timedOut)).body.get? "rooms" =
        some (.arr (c.joinedRooms.map fun r => .obj [("room_id", .str r)])) ∧
      ∃ w, (renderResult (sync reg sid .timedOut)).body.get? "error" =
        some (.str w) ∧ 0 < w.length) ∧
    (∀ dn, (renderResult (rooms reg sid dn true)).isSuccess = true ∧
      (renderResult (rooms reg sid dn true)).body = .arr [] ∧
      (renderResult (rooms reg sid dn true)).body.get? "error" = none) ∧
    (∀ dn, (renderResult (rooms reg sid dn false)).isSuccess = true ∧
      (renderResult (rooms reg sid dn false)).body =
        .arr (c.joinedRooms.map (roomInfoOf dn))) ∧
    (∀ dn r, (∀ n, dn r ≠ .success n) →
      roomInfoOf dn r = .obj [("room_id", .str r), ("name", .str "Unknown")]) ∧
    (∀ rid e, isValidRoomId rid = true → c.joinedRooms.contains rid = true →
      (renderResult (room_messages reg sid rid (.upstreamError e))).status = 500 ∧
      (renderResult (room_messages reg sid rid (.upstreamError e))).isSuccess = false ∧
      (renderResult (room_messages reg sid rid .timedOut)).status = 500 ∧
      (renderResult (room_messages reg sid rid .timedOut)).isSuccess = false) := by
  refine ⟨?_, ⟨?_, ?_, ?_⟩, ?_, ?_, ?_, ?_⟩
  · intro e
    refine ⟨?_, ?_, "Sync warning (continuing with basic room list): " ++ e, ?_, ?_⟩
    · simp [sync, h, renderResult, HttpResponse.isSuccess]
    · simp [sync, h, renderResult, Json.get?, Json.get?.go]
    · simp [sync, h, renderResult, Json.get?, Json.get?.go]
    · rw [String.length_append]
      have : 0 < "Sync warning (continuing with basic room list): ".length := by
        decide
      omega
  · simp [sync, h, renderResult, HttpResponse.isSuccess]
  · simp [sync, h, renderResult, Json.get?, Json.get?.go]
  · exact ⟨"Sync timed out (continuing with basic room list)", by
      simp [sync, h, renderResult, Json.get?, Json.get?.go], by decide⟩
  · intro dn
    refine ⟨?_, ?_, ?_⟩ <;>
      simp [rooms, h, renderResult, HttpResponse.isSuccess, Json.get?]
  · intro dn
    refine ⟨?_, ?_⟩ <;>
      simp [rooms, h, renderResult, HttpResponse.isSuccess]
  · intro dn r hfail
    cases hr : dn r with
    | success n => exact absurd hr (hfail n)
    | upstreamError m => simp [roomInfoOf, hr]
    | timedOut => simp [roomInfoOf, hr]
  · intro rid e hrid hmem
    have hm : rid ∈ c.joinedRooms := by simpa using hmem
    refine ⟨?_, ?_, ?_, ?_⟩ <;>
      simp [room_messages, h, hrid, hm, renderResult, ApiError.errorResponse,
            ApiError.statusCode, HttpResponse.isSuccess]

/-- Witness for C1 (amended): the sample session's timed-out sync is an
HTTP success. -/
theorem c1_witness :
    (renderResult (sync sampleReg "sid" .timedOut)).isSuccess = true := by
  exact (c1_amended_degradation sampleReg "sid" sampleClient none (by decide)).2.1.1

/-- C5 counterexample: the sync handler performs its bounded `sync_once`
call while the shared registry lock is held, and the SSO callback performs
the token exchange while the exclusive registry lock is held — the claimed
release-before-network-call discipline is violated on both cited
operations. -/
theorem c5_counterexample :
    networkCallUnderLock (syncTrace sampleReg "sid") = true ∧
    networkCallUnderLock (login_sso_callbackTrace sampleReg "sid") = true := by
  exact ⟨by decide, by decide⟩

/-- C5 (amended): Each session-scoped handler performs its deadline-bounded
capability call while still holding the registry lock it took to fetch the
client handle — the shared read lock for sync, rooms (each per-room
display-name call, whenever at least one room is listed), messages, send,
create, join and leave, and the exclusive write lock for the SSO
callback's token exchange — releasing it only at handler exit; only
`startLogin` performs its capability calls outside any lock. -/
theorem c5_amended_lock_held (reg : Registry) (sid : String) (c : Client)
    (err : Option String)
    (h : reg.get? sid = some { client := some c, error := err }) :
    networkCallUnderLock (syncTrace reg sid) = true ∧
    networkCallUnderLock (login_sso_callbackTrace reg sid) = true ∧
    (∀ rid, isValidRoomId rid = true → c.joinedRooms.contains rid = true →
      networkCallUnderLock (send_messageTrace reg sid rid) = true) ∧
    (∀ u, networkCallUnderLock
      (login_sso_startTrace (.ok ()) (.ok ()) (.ok u)) = false) ∧
    (c.joinedRooms ≠ [] → networkCallUnderLock (roomsTrace reg sid) = true) ∧
    (∀ rid, isValidRoomId rid = true → c.joinedRooms.contains rid = true →
      networkCallUnderLock (room_messagesTrace reg sid rid) = true) ∧
    networkCallUnderLock (create_roomTrace reg sid) = true ∧
    (∀ rid, isValidRoomId rid = true →
      networkCallUnderLock (join_roomTrace reg sid rid) = true) ∧
    (∀ rid, isValidRoomId rid = true → c.joinedRooms.contains rid = true →
      networkCallUnderLock (leave_roomTrace reg sid rid) = true) := by
  refine ⟨?_, ?_, ?_, ?_, ?_, ?_, ?_, ?_, ?_⟩
  · simp [syncTrace, h, networkCallUnderLock, networkCallUnderLockAux]
  · simp [login_sso_callbackTrace, h, networkCallUnderLock, networkCallUnderLockAux]
  · intro rid hrid hmem
    have hm : rid ∈ c.joinedRooms := by simpa using hmem
    simp [send_messageTrace, h, hrid, hm, networkCallUnderLock,
          networkCallUnderLockAux]
  · intro u
    simp [login_sso_startTrace, networkCallUnderLock, networkCallUnderLockAux]
  · intro hne
    cases hjr : c.joinedRooms with
    | nil => exact absurd hjr hne
    | cons r rest =>
      simp [roomsTrace, h, hjr, networkCallUnderLock, networkCallUnderLockAux]
  · intro rid hrid hmem
    have hm : rid ∈ c.joinedRooms := by simpa using hmem
    simp [room_messagesTrace, h, hrid, hm, networkCallUnderLock,
          networkCallUnderLockAux]
  · simp [create_roomTrace, h, networkCallUnderLock, networkCallUnderLockAux]
  · intro rid hrid
    simp [join_roomTrace, h, hrid, networkCallUnderLock, networkCallUnderLockAux]
  · intro rid hrid hmem
    have hm : rid ∈ c.joinedRooms := by simpa using hmem
    simp [leave_roomTrace, h, hrid, hm, networkCallUnderLock,
          networkCallUnderLockAux]

/-- Witness for C5 (amended): the network call of the sample session's sync
happens under the lock. -/
theorem c5_witness :
    networkCallUnderLock (syncTrace sampleReg "sid") = true := by
  exact (c5_amended_lock_held sampleReg "sid" sampleClient none (by decide)).1

/-- C7 counterexample: an invalid room identifier on the messages endpoint
is reported as `MatrixError`, which `error_response` renders as HTTP 500 —
a server error, not the claimed client error. -/
theorem c7_counterexample :
    (renderResult (room_messages sampleReg "sid" "bad" .timedOut)).isClientError = false ∧
    (renderResult (room_messages sampleReg "sid" "bad" .timedOut)).isServerError = true ∧
    (renderResult (room_messages sampleReg "sid" "bad" .timedOut)).status = 500 := by
  exact ⟨by decide, by decide, by decide⟩

/-- C7 (amended): `InvalidSession` renders as 400 and `NotLoggedIn` as 401
— client errors.  But the invalid-room-identifier case of the messages and
send endpoints is reported as `MatrixError`, and the `SessionNotFound` /
`InvalidRoomId` spellings used by create/join/leave fall into
`error_response`'s catch-all arm; all of these render as HTTP 500 server
errors. -/
theorem c7_amended_status_mapping :
    (ApiError.invalidSession.errorResponse.isClientError = true ∧
      ApiError.invalidSession.statusCode = 400) ∧
    (ApiError.notLoggedIn.errorResponse.isClientError = true ∧
      ApiError.notLoggedIn.statusCode = 401) ∧
    (∀ s, (ApiError.matrixError s).statusCode = 500) ∧
    (ApiError.sessionNotFound.statusCode = 500 ∧
      ApiError.invalidRoomId.statusCode = 500 ∧
      ApiError.roomNotFound.statusCode = 500) ∧
    (∀ reg sid (c : Client) (err : Option String) rid om os,
      reg.get? sid = some { client := some c, error := err } →
      isValidRoomId rid = false →
      (renderResult (room_messages reg sid rid om)).isServerError = true ∧
      (renderResult (send_message reg sid rid "x" os)).isServerError = true) := by
  refine ⟨⟨by decide, by decide⟩, ⟨by decide, by decide⟩, ?_, ⟨rfl, rfl, rfl⟩, ?_⟩
  · intro s
    rfl
  · intro reg sid c err rid om os h hrid
    constructor <;>
      simp [room_messages, send_message, h, hrid, renderResult,
            ApiError.errorResponse, ApiError.statusCode, HttpResponse.isServerError]

/-- Witness for C7 (amended): the sample session and an unparsable room id
make the messages endpoint answer with a server error. -/
theorem c7_witness :
    (renderResult (room_messages sampleReg "sid" "bad" (.success []))).isServerError = true := by
  exact (c7_amended_status_mapping.2.2.2.2 sampleReg "sid" sampleClient none
    "bad" (.success []) (.success "e") (by decide) (by decide)).1

/-- A stored session built from a client handle and a stored error. -/
def mkSession (c : Client) (err : Option String) : Session :=
  { client := some c, error := err }

/-- The same client with its `logged_in()` flag overridden. -/
def setLoginFlag (flag : Bool) (c : Client) : Client :=
  { loggedIn := flag, joinedRooms := c.joinedRooms }

/-- C10: Every registry reachable from the empty initial state through the
public interface stores only sessions with a present client handle; over
any such registry the `NotLoggedIn` branch of the session-scoped handlers
is unreachable; and the handlers never consult the login flag — their
results are unchanged by overriding `logged_in()`, so sessions whose login
is still pending or failed are served all the same (no authentication
check outside `queryStatus`). -/
theorem c10_not_logged_in_unreachable :
    (∀ ops : List Op, (runOps ops).allClientsPresent) ∧
    (∀ (reg : Registry) (sid : String), reg.allClientsPresent →
      (∀ o, sync reg sid o ≠ .error .notLoggedIn) ∧
      (∀ dn t, rooms reg sid dn t ≠ .error .notLoggedIn) ∧
      (∀ rid o, room_messages reg sid rid o ≠ .error .notLoggedIn) ∧
      (∀ rid b o, send_message reg sid rid b o ≠ .error .notLoggedIn) ∧
      (∀ n t o, create_room reg sid n t o ≠ .error .notLoggedIn) ∧
      (∀ rid o, join_room reg sid rid o ≠ .error .notLoggedIn) ∧
      (∀ rid o, leave_room reg sid rid o ≠ .error .notLoggedIn)) ∧
    (∀ (reg : Registry) (sid : String) (c : Client) (err : Option String)
        (flag : Bool),
      (∀ o, sync (((sid, mkSession (setLoginFlag flag c) err) :: reg : Registry)) sid o =
        sync (((sid, mkSession c err) :: reg : Registry)) sid o) ∧
      (∀ dn t, rooms (((sid, mkSession (setLoginFlag flag c) err) :: reg : Registry)) sid dn t =
        rooms (((sid, mkSession c err) :: reg : Registry)) sid dn t) ∧
      (∀ rid o, room_messages (((sid, mkSession (setLoginFlag flag c) err) :: reg : Registry)) sid rid o =
        room_messages (((sid, mkSession c err) :: reg : Registry)) sid rid o) ∧
      (∀ rid b o, send_message (((sid, mkSession (setLoginFlag flag c) err) :: reg : Registry)) sid rid b o =
        send_message (((sid, mkSession c err) :: reg : Registry)) sid rid b o)) := by
  refine ⟨?_, ?_, ?_⟩
  · intro ops
    have step : ∀ (reg : Registry), reg.allClientsPresent →
        (ops.foldl applyOp reg).allClientsPresent := by
      induction ops with
      | nil => exact fun reg h => h
      | cons op rest ih =>
        exact fun reg h => ih (applyOp reg op) (applyOp_preserves_clientsPresent reg op h)
    exact step [] (fun id s hs => by cases hs)
  · intro reg sid hreg
    cases hg : reg.get? sid with
    | none =>
      refine ⟨?_, ?_, ?_, ?_, ?_, ?_, ?_⟩ <;> intros <;>
        simp [sync, rooms, room_messages, send_message, create_room,
              join_room, leave_room, hg]
    | some session =>
      rcases Option.isSome_iff_exists.mp (hreg sid session hg) with ⟨c, hc⟩
      refine ⟨?_, ?_, ?_, ?_, ?_, ?_, ?_⟩
      · intro o
        cases o <;> simp [sync, hg, hc]
      · intro dn t
        cases t <;> simp [rooms, hg, hc]
      · intro rid o
        by_cases hv : isValidRoomId rid
        · by_cases hmem : rid ∈ c.joinedRooms
          · cases o <;> simp [room_messages, hg, hc, hv, hmem]
          · simp [room_messages, hg, hc, hv, hmem]
        · simp [room_messages, hg, hc, hv]
      · intro rid b o
        by_cases hv : isValidRoomId rid
        · by_cases hmem : rid ∈ c.joinedRooms
          · cases o <;> simp [send_message, hg, hc, hv, hmem]
          · simp [send_message, hg, hc, hv, hmem]
        · simp [send_message, hg, hc, hv]
      · intro n t o
        cases o <;> simp [create_room, hg, hc]
      · intro rid o
        by_cases hv : isValidRoomId rid
        · cases o <;> simp [join_room, hg, hc, hv]
        · simp [join_room, hg, hc, hv]
      · intro rid o
        by_cases hv : isValidRoomId rid
        · by_cases hmem : rid ∈ c.joinedRooms
          · cases o <;> simp [leave_room, hg, hc, hv, hmem]
          · simp [leave_room, hg, hc, hv, hmem]
        · simp [leave_room, hg, hc, hv]
  · intro reg sid c err flag
    refine ⟨?_, ?_, ?_, ?_⟩ <;> intros <;>
      simp [sync, rooms, room_messages, send_message, mkSession, setLoginFlag,
            Registry.get?]

/-- Witness for C10: the sample registry satisfies the invariant and its
sync never reports `NotLoggedIn`. -/
theorem c10_witness :
    sync sampleReg "sid" .timedOut ≠ .error .notLoggedIn := by
  have hwf : sampleReg.allClientsPresent := by
    intro id s hs
    by_cases hid : ("sid" : String) = id
    · subst hid
      simp [sampleReg, Registry.get?] at hs
      rw [← hs]
      decide
    · simp [sampleReg, Registry.get?, hid] at hs
  exact (c10_not_logged_in_unreachable.2.1 sampleReg "sid" hwf).1 .timedOut

end MatrixTool
